import Mathlib

/-!
Shallow embedding of `src/graphics/image.rs` (the ggez `Image` module):
the data model (`ImageGeneric` as `Image`), the validating constructor
`make_raw`, the constructors `from_rgba8`, `from_bytes`, `new`, `solid`,
the readback `to_rgba8`, the sampler/blend accessors, and the draw path
`draw_image_raw`.

Machine integers are modelled as `Nat` with the platform address width
(`usize`) made explicit as a `wordBits` parameter where overflow matters.
The gfx rendering backend (texture/view/sampler allocation, download
buffer, blend get/set, draw) is an external collaborator of this module;
it is modelled as explicit state (`Factory`, `GraphicsContext`) with
observable allocation counters, a call log for the blend-mode setter,
and injectable failures, following the spec's description of the backend
as an opaque capability provider with blend-mode get/set.
-/

namespace GgezImage

/-- Error type of the module: `GameError` from `crate::error`.  Only the
two kinds this module produces or forwards are modelled: its own
`ResourceLoadError(msg)` and opaque backend/GPU failures (the source
propagates those unchanged via `?`). -/
inductive GameError where
  | ResourceLoadError (msg : String)
  | GpuError (msg : String)
deriving DecidableEq, Repr

/-- Embeds `GameResult<T>` from `crate::error`. -/
abbrev GameResult (α : Type) := Except GameError α

/-- Modelled from the spec: `BlendMode` (defined outside this module, in
the graphics pipeline code); only equality of blend modes is used by
`image.rs`, so the variants are an opaque enumeration. -/
inductive BlendMode where
  | alpha | add | subtract | invert | multiply | replace | lighten | darken
deriving DecidableEq, Repr

/-- Modelled from the spec: `FilterMode` (linear or nearest filtering),
a value type copied into the sampler configuration. -/
inductive FilterMode where
  | linear | nearest
deriving DecidableEq, Repr

/-- Modelled from the spec: `WrapMode` for one texture axis. -/
inductive WrapMode where
  | tile | mirror | clamp | border
deriving DecidableEq, Repr

/-- Modelled from the spec: `gfx::texture::SamplerInfo`, a value type
holding the filter mode and the wrap mode for the X and Y axes
(the only two fields `image.rs` reads or writes). -/
structure SamplerInfo where
  filter : FilterMode
  wrap_mode : WrapMode × WrapMode
deriving DecidableEq, Repr

/-- A GPU texture allocation (`gfx::handle::RawTexture`).  The handle is
reference-counted and never written after creation by this module, so it
is modelled as carrying the uploaded dimensions and byte contents; the
GPU-descriptor details (mip levels, bind flags, usage) have no observable
effect in this module and are not carried. -/
structure RawTexture where
  width : Nat
  height : Nat
  data : List Nat
deriving DecidableEq, Repr

/-- A shader-resource view over a texture
(`gfx::handle::RawShaderResourceView`): created together with the
texture, always viewing the same allocation. -/
structure ShaderResourceView where
  tex : RawTexture
deriving DecidableEq, Repr

/-- The backend factory: allocation entry point of the rendering backend.
`allocCount` counts texture/view allocation attempts (so "no GPU
allocation is attempted" is observable) and the two flags inject backend
allocation failures, which the source propagates via `?`. -/
structure Factory where
  allocCount : Nat
  failTextureAlloc : Bool
  failViewAlloc : Bool
deriving DecidableEq, Repr

/-- Embeds `factory.create_texture_raw(texinfo, ..., Some((&[&rgba], Mipmap::Provided)))`:
allocates a texture holding `rgba` as its sole mip level, or fails with a
backend error. -/
def Factory.create_texture_raw (f : Factory) (width height : Nat) (rgba : List Nat) :
    Factory × GameResult RawTexture :=
  ({ f with allocCount := f.allocCount + 1 },
   if f.failTextureAlloc then
     Except.error (GameError.GpuError "create_texture_raw failed")
   else
     Except.ok { width := width, height := height, data := rgba })

/-- Embeds `factory.view_texture_as_shader_resource_raw(&raw_tex, resource_desc)`:
builds a view over the full mip range of the texture, or fails with a
backend error. -/
def Factory.view_texture_as_shader_resource_raw (f : Factory) (raw_tex : RawTexture) :
    Factory × GameResult ShaderResourceView :=
  ({ f with allocCount := f.allocCount + 1 },
   if f.failViewAlloc then
     Except.error (GameError.GpuError "view_texture_as_shader_resource_raw failed")
   else
     Except.ok { tex := raw_tex })

/-- Embeds `usize::checked_mul`: `none` when the mathematical product does not
fit the platform's `wordBits`-bit address-width integer. -/
def usize_checked_mul (wordBits a b : Nat) : Option Nat :=
  if a * b < 2 ^ wordBits then some (a * b) else none

/-- Truncation to `usize` (release-mode wrapping semantics of an
unchecked `usize` multiplication). -/
def usize_of (wordBits n : Nat) : Nat := n % 2 ^ wordBits

/-- The image resource: `ImageGeneric` from `image.rs` (its `Image`
instantiation).  Field names and order follow the source struct;
`debug_id` is the opaque context-identity tag. -/
structure Image where
  texture : ShaderResourceView
  texture_handle : RawTexture
  sampler_info : SamplerInfo
  blend_mode : Option BlendMode
  width : Nat
  height : Nat
  debug_id : Nat
deriving DecidableEq, Repr

/-- Embeds `ImageGeneric::make_raw`: validates dimensions and byte count, then
allocates the texture and its view.  `width`/`height` are `u16` values
(callers guarantee `< 2^16`), `rgba` is the byte slice, `color_format`
is passed through opaquely, and the sampler configuration is copied in.
The three validation steps, in source order: zero-dimension check,
overflow-checked `width*height*4`, exact length check; each failure is a
`ResourceLoadError` and returns before any allocation call. -/
def make_raw (wordBits : Nat) (factory : Factory) (sampler_info : SamplerInfo)
    (width height : Nat) (rgba : List Nat) (color_format : Nat) (debug_id : Nat) :
    Factory × GameResult Image :=
  if width = 0 ∨ height = 0 then
    (factory, Except.error (GameError.ResourceLoadError
      ("Tried to create a texture of size " ++ toString width ++ "x" ++
       toString height ++ ", each dimension must be >0")))
  else
    match (usize_checked_mul wordBits width height).bind
        (fun size => usize_checked_mul wordBits size 4) with
    | none =>
      (factory, Except.error (GameError.ResourceLoadError
        ("Integer overflow in Image::make_raw, image size: " ++
         toString width ++ " " ++ toString height)))
    | some expected_bytes =>
      if expected_bytes ≠ rgba.length then
        (factory, Except.error (GameError.ResourceLoadError
          ("Tried to create a texture of size " ++ toString width ++ "x" ++
           toString height ++ ", but gave " ++ toString rgba.length ++
           " bytes of data (expected " ++ toString expected_bytes ++ ")")))
      else
        let (f1, rtex) := factory.create_texture_raw width height rgba
        match rtex with
        | Except.error e => (f1, Except.error e)
        | Except.ok raw_tex =>
          let (f2, rview) := f1.view_texture_as_shader_resource_raw raw_tex
          match rview with
          | Except.error e => (f2, Except.error e)
          | Except.ok raw_view =>
            (f2, Except.ok
              { texture := raw_view
                texture_handle := raw_tex
                sampler_info := sampler_info
                blend_mode := none
                width := width
                height := height
                debug_id := debug_id })

/-- Modelled from the spec: `Color` is converted at use sites into the
tuple of its four RGBA bytes (`let (r, g, b, a) = color.into()`); only
those bytes are observable in this module. -/
structure Color where
  r : Nat
  g : Nat
  b : Nat
  a : Nat
deriving DecidableEq, Repr

/-- The mutable graphics context of the rendering backend
(`ctx.gfx_context`), modelled from the spec's description of the backend
collaborator: factory, default sampler configuration, colour format, the
cached download buffer `to_rgba8_buffer`, the sampler cache, the shared
quad vertex buffer and the `data` bindings, and blend-mode get/set.
`buffer_realloc_count` counts download-buffer reallocations,
`blend_set_calls` logs every invocation of the blend-mode setter, and
the `fail_*` flags inject backend failures (which the source propagates
via `?`). -/
structure GraphicsContext where
  factory : Factory
  default_sampler_info : SamplerInfo
  color_format : Nat
  to_rgba8_buffer : List Nat
  buffer_realloc_count : Nat
  samplers : List SamplerInfo
  quad_vertex_buffer : Nat
  data_vbuf : Nat
  data_tex : Option (ShaderResourceView × SamplerInfo)
  current_blend_mode : BlendMode
  blend_set_calls : List BlendMode
  fail_update : Bool
  fail_set_blend : Bool
  fail_draw : Bool
  draw_calls : Nat
deriving DecidableEq, Repr

/-- Embeds `gfx.blend_mode()`: reads the context's currently active blend mode. -/
def GraphicsContext.blend_mode (gfx : GraphicsContext) : BlendMode :=
  gfx.current_blend_mode

/-- Embeds `gfx.set_blend_mode(mode)`: the backend blend-mode setter.  Every
invocation is logged in `blend_set_calls`; on success the active mode
becomes `mode`, on (injected) failure a GPU error is returned. -/
def GraphicsContext.set_blend_mode (gfx : GraphicsContext) (mode : BlendMode) :
    GraphicsContext × GameResult Unit :=
  if gfx.fail_set_blend then
    ({ gfx with blend_set_calls := gfx.blend_set_calls ++ [mode] },
     Except.error (GameError.GpuError "set_blend_mode failed"))
  else
    ({ gfx with current_blend_mode := mode,
                blend_set_calls := gfx.blend_set_calls ++ [mode] },
     Except.ok ())

/-- Embeds `gfx.update_instance_properties(param)`: uploads the per-draw
instance data; fallible backend call, modelled with an injectable
failure (the draw parameters themselves are floating-point transform
data with no effect on the properties verified here). -/
def GraphicsContext.update_instance_properties (gfx : GraphicsContext) :
    GraphicsContext × GameResult Unit :=
  if gfx.fail_update then
    (gfx, Except.error (GameError.GpuError "update_instance_properties failed"))
  else
    (gfx, Except.ok ())

/-- Embeds `gfx.samplers.get_or_insert(info, factory)`: the sampler cache keyed
by sampler configuration; inserts on first use. -/
def samplers_get_or_insert (cache : List SamplerInfo) (info : SamplerInfo) :
    List SamplerInfo :=
  if info ∈ cache then cache else cache ++ [info]

/-- Embeds `gfx.draw(None)`: issues the draw call through the shared context;
fallible backend call with an injectable failure. -/
def GraphicsContext.draw (gfx : GraphicsContext) :
    GraphicsContext × GameResult Unit :=
  if gfx.fail_draw then
    (gfx, Except.error (GameError.GpuError "draw failed"))
  else
    ({ gfx with draw_calls := gfx.draw_calls + 1 }, Except.ok ())

/-- The full `Context`: its graphics context plus the debug identity this
module reads via `DebugId::get(context)`. -/
structure Context where
  gfx_context : GraphicsContext
  debug_id : Nat
deriving DecidableEq, Repr

/-- Embeds `Image::from_rgba8(context, width, height, rgba)`: reads the debug
identity and colour format from the context and delegates to `make_raw`
with the context's factory and default sampler configuration. -/
def from_rgba8 (wordBits : Nat) (context : Context) (width height : Nat)
    (rgba : List Nat) : Context × GameResult Image :=
  let debug_id := context.debug_id
  let color_format := context.gfx_context.color_format
  let (f, r) := make_raw wordBits context.gfx_context.factory
    context.gfx_context.default_sampler_info width height rgba color_format debug_id
  ({ context with gfx_context := { context.gfx_context with factory := f } }, r)

/-- Embeds `Image::from_bytes(context, bytes)`: decodes `bytes` through the
external codec (`image::load_from_memory(...).to_rgba8()`, passed in as
`decode`, returning width, height and RGBA8 pixels), rejects either
decoded dimension above `u16::MAX` (the failing `u16::try_from`) with a
`ResourceLoadError`, and otherwise forwards to `from_rgba8`. -/
def from_bytes (wordBits : Nat)
    (decode : List Nat → GameResult (Nat × Nat × List Nat))
    (context : Context) (bytes : List Nat) : Context × GameResult Image :=
  match decode bytes with
  | Except.error e => (context, Except.error e)
  | Except.ok (width, height, img) =>
    if 65535 < width then
      (context, Except.error (GameError.ResourceLoadError "Image width > u16::MAX"))
    else if 65535 < height then
      (context, Except.error (GameError.ResourceLoadError "Image height > u16::MAX"))
    else
      from_rgba8 wordBits context width height img

/-- Embeds `Image::new(context, path)`: reads the file's bytes through the
filesystem collaborator (passed in as `fsopen`) and delegates to
`from_bytes`; I/O errors propagate unchanged. -/
def Image.new (wordBits : Nat)
    (decode : List Nat → GameResult (Nat × Nat × List Nat))
    (fsopen : String → GameResult (List Nat))
    (context : Context) (path : String) : Context × GameResult Image :=
  match fsopen path with
  | Except.error e => (context, Except.error e)
  | Except.ok buf => from_bytes wordBits decode context buf

/-- Embeds `Image::solid(context, size, color)`: builds a `size*size`-pixel
buffer by repeatedly extending with the colour's 4 RGBA bytes, then
calls `from_rgba8` with width = height = `size`.  `size_squared` is the
unchecked `usize` product of the source. -/
def solid (wordBits : Nat) (context : Context) (size : Nat) (color : Color) :
    Context × GameResult Image :=
  let pixel_array : List Nat := [color.r, color.g, color.b, color.a]
  let size_squared := usize_of wordBits (size * size)
  let buffer := (List.replicate size_squared pixel_array).flatten
  from_rgba8 wordBits context size size buffer

/-- Embeds `Image::to_rgba8(&self, ctx)`: computes `size_needed = w*h*4` (an
unchecked `usize` product), reallocates the context's cached download
buffer when its length differs from `size_needed`, issues the
texture-to-buffer copy over the full extent, flushes, and returns the
mapped buffer contents.  The copy deposits the texture's bytes in the
download buffer; flush and mapping have no further observable effect
here. -/
def to_rgba8 (wordBits : Nat) (self : Image) (gfx : GraphicsContext) :
    GraphicsContext × GameResult (List Nat) :=
  let size_needed := usize_of wordBits (self.width * self.height * 4)
  let (dl_buffer, rcount) :=
    if gfx.to_rgba8_buffer.length ≠ size_needed then
      (List.replicate size_needed 0, gfx.buffer_realloc_count + 1)
    else
      (gfx.to_rgba8_buffer, gfx.buffer_realloc_count)
  let copied := self.texture_handle.data ++
    dl_buffer.drop self.texture_handle.data.length
  ({ gfx with to_rgba8_buffer := copied, buffer_realloc_count := rcount },
   Except.ok copied)

/-- Embeds `Image::width()`. -/
def Image.width_acc (self : Image) : Nat := self.width

/-- Embeds `Image::height()`. -/
def Image.height_acc (self : Image) : Nat := self.height

/-- Embeds `Image::filter()`: reads the filter mode from the sampler config. -/
def Image.filter (self : Image) : FilterMode := self.sampler_info.filter

/-- Embeds `Image::set_filter(mode)`: writes only `sampler_info.filter`. -/
def Image.set_filter (self : Image) (mode : FilterMode) : Image :=
  { self with sampler_info := { self.sampler_info with filter := mode } }

/-- Embeds `Image::wrap()`: reads the wrap modes from the sampler config. -/
def Image.wrap (self : Image) : WrapMode × WrapMode :=
  (self.sampler_info.wrap_mode.1, self.sampler_info.wrap_mode.2)

/-- Embeds `Image::set_wrap(wrap_x, wrap_y)`: writes only
`sampler_info.wrap_mode`. -/
def Image.set_wrap (self : Image) (wrap_x wrap_y : WrapMode) : Image :=
  { self with sampler_info :=
      { self.sampler_info with wrap_mode := (wrap_x, wrap_y) } }

/-- Embeds `Drawable::set_blend_mode` for `Image`: writes only the optional
override. -/
def Image.set_blend_mode (self : Image) (mode : Option BlendMode) : Image :=
  { self with blend_mode := mode }

/-- Embeds `Drawable::blend_mode` for `Image`: reads the optional override. -/
def Image.blend_mode_acc (self : Image) : Option BlendMode := self.blend_mode

/-- Embeds `draw_image_raw(image, ctx, param)`: uploads instance properties,
resolves the sampler from the cache, binds the shared quad vertex buffer
and the texture/sampler pair, switches the blend mode when the image's
override differs from the context's current mode (remembering the prior
mode), issues the draw call, and restores the remembered mode.  Every
`?` of the source is an explicit early return here, reproducing the
source's control flow exactly — including the early return of
`gfx.draw(None)?` that skips the restore. -/
def draw_image_raw (image : Image) (gfx0 : GraphicsContext) :
    GraphicsContext × GameResult Unit :=
  let (gfx1, r1) := gfx0.update_instance_properties
  match r1 with
  | Except.error e => (gfx1, Except.error e)
  | Except.ok _ =>
    let gfx2 := { gfx1 with
      samplers := samplers_get_or_insert gfx1.samplers image.sampler_info,
      data_vbuf := gfx1.quad_vertex_buffer,
      data_tex := some (image.texture, image.sampler_info) }
    match image.blend_mode with
    | some mode =>
      let current_mode := gfx2.blend_mode
      if current_mode ≠ mode then
        let (gfx3, r3) := gfx2.set_blend_mode mode
        match r3 with
        | Except.error e => (gfx3, Except.error e)
        | Except.ok _ =>
          let (gfx4, r4) := gfx3.draw
          match r4 with
          | Except.error e => (gfx4, Except.error e)
          | Except.ok _ =>
            let (gfx5, r5) := gfx4.set_blend_mode current_mode
            match r5 with
            | Except.error e => (gfx5, Except.error e)
            | Except.ok _ => (gfx5, Except.ok ())
      else
        gfx2.draw
    | none =>
      gfx2.draw

/-! Concrete fixtures used by the closed-instance theorems below: a
non-failing factory, a default sampler configuration, a graphics context
with the `alpha` blend mode active and no injected failures, and a few
concrete images. -/

def exFactory : Factory :=
  { allocCount := 0, failTextureAlloc := false, failViewAlloc := false }

def exFactoryAfter : Factory :=
  { allocCount := 2, failTextureAlloc := false, failViewAlloc := false }

def exSampler : SamplerInfo :=
  { filter := FilterMode.linear, wrap_mode := (WrapMode.clamp, WrapMode.clamp) }

def exG : GraphicsContext :=
  { factory := exFactory, default_sampler_info := exSampler, color_format := 0,
    to_rgba8_buffer := [], buffer_realloc_count := 0, samplers := [],
    quad_vertex_buffer := 1, data_vbuf := 0, data_tex := none,
    current_blend_mode := BlendMode.alpha, blend_set_calls := [],
    fail_update := false, fail_set_blend := false, fail_draw := false,
    draw_calls := 0 }

def exGDrawFail : GraphicsContext := { exG with fail_draw := true }

def exCtx : Context := { gfx_context := exG, debug_id := 42 }

def exImageAdd : Image :=
  { texture := { tex := { width := 1, height := 1, data := [9, 9, 9, 9] } },
    texture_handle := { width := 1, height := 1, data := [9, 9, 9, 9] },
    sampler_info := exSampler, blend_mode := some BlendMode.add,
    width := 1, height := 1, debug_id := 42 }

def exImageNone : Image := { exImageAdd with blend_mode := none }

def exImg2 : Image :=
  { texture := { tex := { width := 2, height := 2, data := List.replicate 16 99 } },
    texture_handle := { width := 2, height := 2, data := List.replicate 16 99 },
    sampler_info := exSampler, blend_mode := none,
    width := 2, height := 2, debug_id := 42 }

def exDecodeWide : List Nat → GameResult (Nat × Nat × List Nat) :=
  fun _ => Except.ok (70000, 1, [])

def exFsopen : String → GameResult (List Nat) :=
  fun _ => Except.error (GameError.ResourceLoadError "no such file")

def exColor : Color := { r := 10, g := 20, b := 30, a := 40 }

def exSolidBytes : List Nat :=
  [10, 20, 30, 40, 10, 20, 30, 40, 10, 20, 30, 40, 10, 20, 30, 40]

def exImgSolid : Image :=
  { texture := { tex := { width := 2, height := 2, data := exSolidBytes } },
    texture_handle := { width := 2, height := 2, data := exSolidBytes },
    sampler_info := exSampler, blend_mode := none,
    width := 2, height := 2, debug_id := 42 }

def exCtxAfterSolid : Context :=
  { gfx_context := { exG with factory := exFactoryAfter }, debug_id := 42 }

/-- On validation success (nonzero dimensions, product in range, exact byte
count) and with a non-failing factory, `make_raw` performs exactly the
texture and view allocations and returns the fully determined image. -/
theorem make_raw_ok_eq (wordBits : Nat) (f : Factory) (si : SamplerInfo)
    (w h : Nat) (rgba : List Nat) (cf d : Nat)
    (hw : 0 < w) (hh : 0 < h) (hlen : rgba.length = w * h * 4)
    (hfit : w * h * 4 < 2 ^ wordBits)
    (hft : f.failTextureAlloc = false) (hfv : f.failViewAlloc = false) :
    make_raw wordBits f si w h rgba cf d =
      ({ f with allocCount := f.allocCount + 1 + 1 },
       Except.ok
         { texture := { tex := { width := w, height := h, data := rgba } }
           texture_handle := { width := w, height := h, data := rgba }
           sampler_info := si
           blend_mode := none
           width := w
           height := h
           debug_id := d }) := by
  have h0 : ¬(w = 0 ∨ h = 0) := by omega
  have hm1 : w * h < 2 ^ wordBits := by nlinarith
  simp only [make_raw, h0, if_false, usize_checked_mul, hm1, if_pos, Option.bind_some,
    Option.some_bind, hfit, if_true, hlen, ne_eq, not_true_eq_false,
    Factory.create_texture_raw, hft, Bool.false_eq_true, if_neg,
    Factory.view_texture_as_shader_resource_raw, hfv, ite_false]

/-- When validation fails (a zero dimension, an overflowing product, or a
byte-count mismatch), `make_raw` returns a `ResourceLoadError` and the
factory untouched — no allocation is attempted, whatever the factory's
failure behaviour. -/
theorem make_raw_err_of_invalid (wordBits : Nat) (f : Factory) (si : SamplerInfo)
    (w h : Nat) (rgba : List Nat) (cf d : Nat)
    (hinv : ¬(0 < w ∧ 0 < h ∧ w * h * 4 < 2 ^ wordBits ∧ rgba.length = w * h * 4)) :
    ∃ msg, make_raw wordBits f si w h rgba cf d =
      (f, Except.error (GameError.ResourceLoadError msg)) := by
  by_cases h0 : w = 0 ∨ h = 0
  · exact ⟨_, by simp only [make_raw, h0, if_true]; rfl⟩
  · have hw : 0 < w := by omega
    have hh : 0 < h := by omega
    by_cases hm1 : w * h < 2 ^ wordBits
    · by_cases hm2 : w * h * 4 < 2 ^ wordBits
      · have hlen : rgba.length ≠ w * h * 4 := by
          intro hcontra; exact hinv ⟨hw, hh, hm2, hcontra⟩
        exact ⟨_, by
          simp only [make_raw, h0, if_false, usize_checked_mul, hm1, if_pos,
            Option.some_bind, hm2, if_true, ne_eq, ite_not]
          simp only [Ne.symm hlen, if_false]
          rfl⟩
      · exact ⟨_, by
          simp only [make_raw, h0, if_false, usize_checked_mul, hm1, if_pos,
            Option.some_bind, hm2, if_false]; rfl⟩
    · have hm2 : ¬(w * h * 4 < 2 ^ wordBits) := by
        intro hc; exact hm1 (by nlinarith)
      exact ⟨_, by
        simp only [make_raw, h0, if_false, usize_checked_mul, hm1, if_false,
          Option.none_bind]
        rfl⟩

/-- When both dimensions are nonzero but `width*height*4` does not fit the
address-width integer, the checked multiplication trips and `make_raw`
returns exactly the overflow `ResourceLoadError`, factory untouched. -/
theorem make_raw_overflow_eq (wordBits : Nat) (f : Factory) (si : SamplerInfo)
    (w h : Nat) (rgba : List Nat) (cf d : Nat)
    (hw : 0 < w) (hh : 0 < h) (hov : 2 ^ wordBits ≤ w * h * 4) :
    make_raw wordBits f si w h rgba cf d =
      (f, Except.error (GameError.ResourceLoadError
        ("Integer overflow in Image::make_raw, image size: " ++
         toString w ++ " " ++ toString h))) := by
  have h0 : ¬(w = 0 ∨ h = 0) := by omega
  have hm2 : ¬(w * h * 4 < 2 ^ wordBits) := by omega
  by_cases hm1 : w * h < 2 ^ wordBits
  · simp only [make_raw, h0, if_false, usize_checked_mul, hm1, if_pos,
      Option.some_bind, hm2, if_false]
  · simp only [make_raw, h0, if_false, usize_checked_mul, hm1, if_false,
      Option.none_bind]

/-- Embeds `from_rgba8` delegates to `make_raw` on the context's factory; the
result component is the same. -/
theorem from_rgba8_snd (wordBits : Nat) (context : Context) (w h : Nat)
    (rgba : List Nat) :
    (from_rgba8 wordBits context w h rgba).2 =
      (make_raw wordBits context.gfx_context.factory
        context.gfx_context.default_sampler_info w h rgba
        context.gfx_context.color_format context.debug_id).2 := rfl

/-- Embeds `from_rgba8` leaves every context component except the factory
unchanged. -/
theorem from_rgba8_fst (wordBits : Nat) (context : Context) (w h : Nat)
    (rgba : List Nat) :
    (from_rgba8 wordBits context w h rgba).1 =
      { context with gfx_context :=
          { context.gfx_context with factory :=
              (make_raw wordBits context.gfx_context.factory
                context.gfx_context.default_sampler_info w h rgba
                context.gfx_context.color_format context.debug_id).1 } } := rfl

/-- Readback returns exactly the texture's stored bytes whenever the
texture holds `width*height*4` bytes (the construction invariant) and
that byte count fits the address width. -/
theorem to_rgba8_data (wordBits : Nat) (img : Image) (g : GraphicsContext)
    (hlen : img.texture_handle.data.length = img.width * img.height * 4)
    (hfit : img.width * img.height * 4 < 2 ^ wordBits) :
    (to_rgba8 wordBits img g).2 = Except.ok img.texture_handle.data := by
  have hmod : (img.width * img.height * 4) % 2 ^ wordBits =
      img.width * img.height * 4 := Nat.mod_eq_of_lt hfit
  by_cases hb : g.to_rgba8_buffer.length = img.width * img.height * 4
  · simp only [to_rgba8, usize_of, hmod, hb, ne_eq, not_true_eq_false, if_false]
    simp [List.drop_eq_nil_of_le (le_of_eq (hb.trans hlen.symm))]
  · simp only [to_rgba8, usize_of, hmod, ne_eq, hb, not_false_iff, if_true]
    have hdrop : (List.replicate (img.width * img.height * 4) (0 : Nat)).drop
        img.texture_handle.data.length = [] :=
      List.drop_eq_nil_of_le (by simp [hlen])
    simp [hdrop]

/-- The download buffer is reallocated exactly when its length differs
from the requested size. -/
theorem to_rgba8_realloc_count (wordBits : Nat) (img : Image) (g : GraphicsContext) :
    (to_rgba8 wordBits img g).1.buffer_realloc_count =
      (if g.to_rgba8_buffer.length =
          usize_of wordBits (img.width * img.height * 4)
       then g.buffer_realloc_count else g.buffer_realloc_count + 1) := by
  by_cases hb : g.to_rgba8_buffer.length =
      usize_of wordBits (img.width * img.height * 4)
  · simp [to_rgba8, hb]
  · simp [to_rgba8, hb]

/-- Length of a flattened replication. -/
theorem flatten_replicate_length (k : Nat) (l : List Nat) :
    ((List.replicate k l).flatten).length = k * l.length := by
  induction k with
  | zero => simp
  | succ n ih =>
    simp [List.replicate_succ, ih, Nat.succ_mul, Nat.add_comm]

/-- Every aligned group of a flattened replication equals the replicated
block. -/
theorem flatten_replicate_extract (l : List Nat) :
    ∀ k i, i < k →
      (((List.replicate k l).flatten).drop (l.length * i)).take l.length = l := by
  intro k
  induction k with
  | zero => intro i h; omega
  | succ n ih =>
    intro i hi
    cases i with
    | zero =>
      rw [List.replicate_succ, List.flatten_cons, Nat.mul_zero, List.drop_zero]
      exact List.take_left l (List.replicate n l).flatten
    | succ j =>
      have hj : j < n := by omega
      rw [List.replicate_succ, List.flatten_cons]
      have hmul : l.length * (j + 1) = l.length + l.length * j := by ring
      rw [hmul, List.drop_append]
      exact ih j hj

/-- With no blend-mode override the draw path makes no blend-setter call
and leaves the active blend mode unchanged, on success and failure
alike. -/
theorem draw_image_raw_none (image : Image) (g : GraphicsContext)
    (hbm : image.blend_mode = none) :
    (draw_image_raw image g).1.blend_set_calls = g.blend_set_calls ∧
    (draw_image_raw image g).1.current_blend_mode = g.current_blend_mode := by
  by_cases hfu : g.fail_update = true <;>
  by_cases hfd : g.fail_draw = true <;>
  simp [draw_image_raw, GraphicsContext.update_instance_properties,
    GraphicsContext.draw, hbm, hfu, hfd]

/-- With an override equal to the active blend mode the draw path makes
no blend-setter call and leaves the active blend mode unchanged. -/
theorem draw_image_raw_same (image : Image) (g : GraphicsContext)
    (hbm : image.blend_mode = some g.current_blend_mode) :
    (draw_image_raw image g).1.blend_set_calls = g.blend_set_calls ∧
    (draw_image_raw image g).1.current_blend_mode = g.current_blend_mode := by
  by_cases hfu : g.fail_update = true <;>
  by_cases hfd : g.fail_draw = true <;>
  simp [draw_image_raw, GraphicsContext.update_instance_properties,
    GraphicsContext.draw, GraphicsContext.blend_mode, hbm, hfu, hfd]

/-- A successful draw always ends with the context's blend mode equal to
the mode it started with. -/
theorem draw_ok_restores (image : Image) (g : GraphicsContext)
    (hok : (draw_image_raw image g).2 = Except.ok ()) :
    (draw_image_raw image g).1.current_blend_mode = g.current_blend_mode := by
  rcases hbm : image.blend_mode with _ | m
  · exact (draw_image_raw_none image g hbm).2
  · by_cases heq : m = g.current_blend_mode
    · subst heq
      exact (draw_image_raw_same image g hbm).2
    · have hne : g.current_blend_mode ≠ m := fun hc => heq hc.symm
      by_cases hfu : g.fail_update = true
      · exfalso
        simp [draw_image_raw, GraphicsContext.update_instance_properties, hfu] at hok
      · by_cases hfs : g.fail_set_blend = true
        · exfalso
          simp [draw_image_raw, GraphicsContext.update_instance_properties,
            GraphicsContext.set_blend_mode, GraphicsContext.blend_mode,
            hbm, hne, hfu, hfs] at hok
        · by_cases hfd : g.fail_draw = true
          · exfalso
            simp [draw_image_raw, GraphicsContext.update_instance_properties,
              GraphicsContext.set_blend_mode, GraphicsContext.blend_mode,
              GraphicsContext.draw, hbm, hne, hfu, hfs, hfd] at hok
          · simp [draw_image_raw, GraphicsContext.update_instance_properties,
              GraphicsContext.set_blend_mode, GraphicsContext.blend_mode,
              GraphicsContext.draw, hbm, hne, hfu, hfs, hfd]

/-- When the override differs, the switch succeeds and the draw call
itself fails, the function returns the draw error with the override
still active: the prior mode is not restored on this exit path. -/
theorem draw_fail_no_restore (image : Image) (g : GraphicsContext) (m : BlendMode)
    (hbm : image.blend_mode = some m) (hne : m ≠ g.current_blend_mode)
    (hfu : g.fail_update = false) (hfs : g.fail_set_blend = false)
    (hfd : g.fail_draw = true) :
    (draw_image_raw image g).1.current_blend_mode = m ∧
    (draw_image_raw image g).2 =
      Except.error (GameError.GpuError "draw failed") := by
  have hne' : g.current_blend_mode ≠ m := fun hc => hne hc.symm
  simp [draw_image_raw, GraphicsContext.update_instance_properties,
    GraphicsContext.set_blend_mode, GraphicsContext.blend_mode,
    GraphicsContext.draw, hbm, hne', hfu, hfs, hfd]

/-- Any image `make_raw` returns successfully carries no blend-mode
override. -/
theorem make_raw_ok_blend_none (wordBits : Nat) (f : Factory) (si : SamplerInfo)
    (w h : Nat) (rgba : List Nat) (cf d : Nat) (f' : Factory) (img : Image)
    (heq : make_raw wordBits f si w h rgba cf d = (f', Except.ok img)) :
    img.blend_mode = none := by
  simp only [make_raw, Factory.create_texture_raw,
    Factory.view_texture_as_shader_resource_raw] at heq
  split at heq
  · simp at heq
  · split at heq
    · simp at heq
    · split at heq
      · simp at heq
      · split at heq
        · simp at heq
        · split at heq
          · simp at heq
          · rw [Prod.mk.injEq] at heq
            obtain ⟨-, himg⟩ := heq
            cases himg
            rfl

/-- C1 counterexample: the image's override `add` differs from the active
mode `alpha`, so the blend mode is switched (one setter call with `add`),
then the draw call itself fails; `draw_image_raw` returns the error with
`add` still active — the prior mode `alpha` is not restored on this exit
path, contradicting "restored on every exit path". -/
theorem c1_restore_counterexample :
    exImageAdd.blend_mode = some BlendMode.add ∧
    exGDrawFail.current_blend_mode = BlendMode.alpha ∧
    (draw_image_raw exImageAdd exGDrawFail).1.blend_set_calls = [BlendMode.add] ∧
    (draw_image_raw exImageAdd exGDrawFail).2 =
      Except.error (GameError.GpuError "draw failed") ∧
    (draw_image_raw exImageAdd exGDrawFail).1.current_blend_mode = BlendMode.add :=
  ⟨rfl, rfl, rfl, rfl, rfl⟩

/-- C1 (amended): whenever `draw_image_raw` returns successfully the prior
blend mode is restored (the active mode at exit equals the mode at
entry); but on the exit path where the draw call itself fails after a
blend-mode switch, the function returns the error with the override
still active — the prior mode is not restored there. -/
theorem c1_blend_restore_amended (image : Image) (g : GraphicsContext) :
    ((draw_image_raw image g).2 = Except.ok () →
      (draw_image_raw image g).1.current_blend_mode = g.current_blend_mode) ∧
    (∀ m, image.blend_mode = some m → m ≠ g.current_blend_mode →
      g.fail_update = false → g.fail_set_blend = false → g.fail_draw = true →
      (draw_image_raw image g).1.current_blend_mode = m ∧
      (draw_image_raw image g).2 =
        Except.error (GameError.GpuError "draw failed")) :=
  ⟨draw_ok_restores image g,
   fun m hbm hne hfu hfs hfd => draw_fail_no_restore image g m hbm hne hfu hfs hfd⟩

/-- C1 amended witness: the success path restores `alpha`; the injected
draw failure leaves `add` active. -/
theorem c1_blend_restore_amended_witness :
    (draw_image_raw exImageAdd exG).1.current_blend_mode = exG.current_blend_mode ∧
    (draw_image_raw exImageAdd exGDrawFail).1.current_blend_mode = BlendMode.add :=
  ⟨(c1_blend_restore_amended exImageAdd exG).1 rfl,
   ((c1_blend_restore_amended exImageAdd exGDrawFail).2 BlendMode.add rfl
     (by decide) rfl rfl rfl).1⟩

/-- C2: with a non-failing backend and 16-bit dimensions, `make_raw`
succeeds exactly when both dimensions are nonzero and the byte slice has
length `width*height*4`; every failure is a `ResourceLoadError` and
leaves the factory untouched — no GPU allocation is attempted before
validation passes. -/
theorem c2_validator_iff (wordBits : Nat) (f : Factory) (si : SamplerInfo)
    (w h : Nat) (rgba : List Nat) (cf d : Nat)
    (hword : 34 ≤ wordBits) (hw16 : w < 65536) (hh16 : h < 65536)
    (hft : f.failTextureAlloc = false) (hfv : f.failViewAlloc = false) :
    ((∃ f' img, make_raw wordBits f si w h rgba cf d = (f', Except.ok img)) ↔
      (0 < w ∧ 0 < h ∧ rgba.length = w * h * 4)) ∧
    (∀ f' e, make_raw wordBits f si w h rgba cf d = (f', Except.error e) →
      (∃ msg, e = GameError.ResourceLoadError msg) ∧ f' = f) := by
  have hprod : w * h ≤ 65535 * 65535 := Nat.mul_le_mul (by omega) (by omega)
  have hfit : w * h * 4 < 2 ^ wordBits := by
    calc w * h * 4 ≤ 65535 * 65535 * 4 := by omega
      _ < 2 ^ 34 := by norm_num
      _ ≤ 2 ^ wordBits := Nat.pow_le_pow_right (by norm_num) hword
  constructor
  · constructor
    · rintro ⟨f', img, heq⟩
      by_contra hinv
      have hinv4 : ¬(0 < w ∧ 0 < h ∧ w * h * 4 < 2 ^ wordBits ∧
          rgba.length = w * h * 4) := fun ⟨h1, h2, _, h4⟩ => hinv ⟨h1, h2, h4⟩
      obtain ⟨msg, hmr⟩ := make_raw_err_of_invalid wordBits f si w h rgba cf d hinv4
      rw [heq] at hmr
      exact absurd (congrArg Prod.snd hmr) (by simp)
    · rintro ⟨hw, hh, hlen⟩
      exact ⟨_, _, make_raw_ok_eq wordBits f si w h rgba cf d hw hh hlen hfit hft hfv⟩
  · intro f' e heq
    by_cases hval : 0 < w ∧ 0 < h ∧ rgba.length = w * h * 4
    · obtain ⟨hw, hh, hlen⟩ := hval
      have hok := make_raw_ok_eq wordBits f si w h rgba cf d hw hh hlen hfit hft hfv
      rw [heq] at hok
      exact absurd (congrArg Prod.snd hok) (by simp)
    · have hinv4 : ¬(0 < w ∧ 0 < h ∧ w * h * 4 < 2 ^ wordBits ∧
          rgba.length = w * h * 4) := fun ⟨h1, h2, _, h4⟩ => hval ⟨h1, h2, h4⟩
      obtain ⟨msg, hmr⟩ := make_raw_err_of_invalid wordBits f si w h rgba cf d hinv4
      rw [heq] at hmr
      have h1 := congrArg Prod.fst hmr
      have h2 := congrArg Prod.snd hmr
      simp only at h1 h2
      refine ⟨⟨msg, ?_⟩, h1⟩
      cases h2
      rfl

/-- C2 witness: the 2x2 image with 16 bytes succeeds; the validator's
conditions hold at that input. -/
theorem c2_validator_iff_witness :
    ∃ f' img, make_raw 64 exFactory exSampler 2 2 (List.replicate 16 99) 0 42 =
      (f', Except.ok img) :=
  (c2_validator_iff 64 exFactory exSampler 2 2 (List.replicate 16 99) 0 42
    (by norm_num) (by norm_num) (by norm_num) rfl rfl).1.mpr
    ⟨by norm_num, by norm_num, by simp⟩

/-- C3: when `width*height*4` does not fit the `wordBits`-bit address
width (both dimensions nonzero), the checked multiplication trips and
both `make_raw` and `from_rgba8` return the overflow `ResourceLoadError`
with the factory untouched — no panic, no wrapping. -/
theorem c3_overflow_checked (wordBits : Nat) (f : Factory) (si : SamplerInfo)
    (ctx : Context) (w h : Nat) (rgba : List Nat) (cf d : Nat)
    (hw : 0 < w) (hh : 0 < h) (hov : 2 ^ wordBits ≤ w * h * 4) :
    make_raw wordBits f si w h rgba cf d =
      (f, Except.error (GameError.ResourceLoadError
        ("Integer overflow in Image::make_raw, image size: " ++
         toString w ++ " " ++ toString h))) ∧
    (from_rgba8 wordBits ctx w h rgba).2 =
      Except.error (GameError.ResourceLoadError
        ("Integer overflow in Image::make_raw, image size: " ++
         toString w ++ " " ++ toString h)) := by
  refine ⟨make_raw_overflow_eq wordBits f si w h rgba cf d hw hh hov, ?_⟩
  rw [from_rgba8_snd,
    make_raw_overflow_eq wordBits ctx.gfx_context.factory
      ctx.gfx_context.default_sampler_info w h rgba
      ctx.gfx_context.color_format ctx.debug_id hw hh hov]

/-- C3 witness: width = height = 65535 on a 32-bit address width
overflows (65535*65535*4 ≥ 2^32) and yields the overflow error. -/
theorem c3_overflow_checked_witness :
    make_raw 32 exFactory exSampler 65535 65535 [] 0 42 =
      (exFactory, Except.error (GameError.ResourceLoadError
        ("Integer overflow in Image::make_raw, image size: " ++
         toString 65535 ++ " " ++ toString 65535))) :=
  (c3_overflow_checked 32 exFactory exSampler exCtx 65535 65535 [] 0 42
    (by norm_num) (by norm_num) (by norm_num)).1

/-- C4: for every valid triple (nonzero dimensions, exact byte count,
product within the address width) and a non-failing backend, reading the
image created by `from_rgba8` back with `to_rgba8` returns exactly the
original bytes. -/
theorem c4_roundtrip (wordBits : Nat) (ctx : Context) (w h : Nat)
    (data : List Nat)
    (hw : 0 < w) (hh : 0 < h) (hlen : data.length = w * h * 4)
    (hfit : w * h * 4 < 2 ^ wordBits)
    (hft : ctx.gfx_context.factory.failTextureAlloc = false)
    (hfv : ctx.gfx_context.factory.failViewAlloc = false) :
    ∀ ctx' img, from_rgba8 wordBits ctx w h data = (ctx', Except.ok img) →
      (to_rgba8 wordBits img ctx'.gfx_context).2 = Except.ok data := by
  intro ctx' img heq
  have h2 : (from_rgba8 wordBits ctx w h data).2 = Except.ok img := by rw [heq]
  rw [from_rgba8_snd,
    make_raw_ok_eq wordBits ctx.gfx_context.factory
      ctx.gfx_context.default_sampler_info w h data
      ctx.gfx_context.color_format ctx.debug_id hw hh hlen hfit hft hfv] at h2
  simp only [Except.ok.injEq] at h2
  subst h2
  exact to_rgba8_data wordBits _ ctx'.gfx_context hlen hfit

/-- C4 witness: the 2x2 image of 16 `99`-bytes reads back unchanged. -/
theorem c4_roundtrip_witness :
    (to_rgba8 64 exImg2 exCtx.gfx_context).2 =
      Except.ok (List.replicate 16 99) :=
  c4_roundtrip 64 exCtx 2 2 (List.replicate 16 99) (by norm_num) (by norm_num)
    (by simp) (by norm_num) rfl rfl
    { exCtx with gfx_context := { exG with factory := exFactoryAfter } }
    exImg2 rfl

/-- C5: the blend-mode setter is invoked only when the image carries an
override differing from the context's active mode: with no override or a
matching override the setter call log is unchanged (zero switch calls),
any change to the log implies a differing override, and two consecutive
draws of an override-free image make zero setter calls in total. -/
theorem c5_blend_switch_only_on_differing_override (image : Image)
    (g : GraphicsContext) :
    ((image.blend_mode = none ∨ image.blend_mode = some g.current_blend_mode) →
      (draw_image_raw image g).1.blend_set_calls = g.blend_set_calls) ∧
    ((draw_image_raw image g).1.blend_set_calls ≠ g.blend_set_calls →
      ∃ m, image.blend_mode = some m ∧ m ≠ g.current_blend_mode) ∧
    (image.blend_mode = none →
      (draw_image_raw image (draw_image_raw image g).1).1.blend_set_calls =
        g.blend_set_calls) := by
  refine ⟨?_, ?_, ?_⟩
  · rintro (hbm | hbm)
    · exact (draw_image_raw_none image g hbm).1
    · exact (draw_image_raw_same image g hbm).1
  · intro hne
    rcases hbm : image.blend_mode with _ | m
    · exact absurd (draw_image_raw_none image g hbm).1 hne
    · by_cases heq : m = g.current_blend_mode
      · subst heq
        exact absurd (draw_image_raw_same image g hbm).1 hne
      · exact ⟨m, rfl, heq⟩
  · intro hbm
    rw [(draw_image_raw_none image (draw_image_raw image g).1 hbm).1]
    exact (draw_image_raw_none image g hbm).1

/-- C5 witness: drawing the override-free image twice leaves the setter
call log empty. -/
theorem c5_blend_switch_witness :
    (draw_image_raw exImageNone
      (draw_image_raw exImageNone exG).1).1.blend_set_calls =
      exG.blend_set_calls :=
  (c5_blend_switch_only_on_differing_override exImageNone exG).2.2 rfl

/-- C6: `to_rgba8` reallocates the context's cached download buffer
exactly when its length differs from `needed = width*height*4`: a
strictly larger buffer is also reallocated, an exactly-sized one is
reused. -/
theorem c6_realloc_iff (wordBits : Nat) (img : Image) (g : GraphicsContext)
    (hfit : img.width * img.height * 4 < 2 ^ wordBits) :
    (to_rgba8 wordBits img g).1.buffer_realloc_count =
      (if g.to_rgba8_buffer.length = img.width * img.height * 4
       then g.buffer_realloc_count
       else g.buffer_realloc_count + 1) := by
  rw [to_rgba8_realloc_count]
  simp [usize_of, Nat.mod_eq_of_lt hfit]

/-- C6 witness: reading a 2x2 image with an empty cached buffer
reallocates once (0 ≠ 16). -/
theorem c6_realloc_iff_witness :
    (to_rgba8 64 exImg2 exG).1.buffer_realloc_count =
      (if exG.to_rgba8_buffer.length = exImg2.width * exImg2.height * 4
       then exG.buffer_realloc_count
       else exG.buffer_realloc_count + 1) :=
  c6_realloc_iff 64 exImg2 exG (by simp [exImg2])

/-- C7: when decoding succeeds, `from_bytes` fails with a
`ResourceLoadError` if the decoded width (checked first) or height
exceeds `u16::MAX = 65535`, and otherwise forwards the decoded
dimensions and pixels to `from_rgba8`. -/
theorem c7_from_bytes_checks (wordBits : Nat)
    (decode : List Nat → GameResult (Nat × Nat × List Nat))
    (ctx : Context) (bytes : List Nat) (w h : Nat) (pix : List Nat)
    (hd : decode bytes = Except.ok (w, h, pix)) :
    (65535 < w → from_bytes wordBits decode ctx bytes =
      (ctx, Except.error
        (GameError.ResourceLoadError "Image width > u16::MAX"))) ∧
    (w ≤ 65535 → 65535 < h → from_bytes wordBits decode ctx bytes =
      (ctx, Except.error
        (GameError.ResourceLoadError "Image height > u16::MAX"))) ∧
    (w ≤ 65535 → h ≤ 65535 → from_bytes wordBits decode ctx bytes =
      from_rgba8 wordBits ctx w h pix) := by
  refine ⟨fun h1 => ?_, fun h1 h2 => ?_, fun h1 h2 => ?_⟩
  · simp [from_bytes, hd, h1]
  · simp [from_bytes, hd, h2, Nat.not_lt.mpr h1]
  · simp [from_bytes, hd, Nat.not_lt.mpr h1, Nat.not_lt.mpr h2]

/-- C7 witness: a decode result 70000 pixels wide is rejected as too wide
for `u16`. -/
theorem c7_from_bytes_checks_witness :
    from_bytes 64 exDecodeWide exCtx [] =
      (exCtx, Except.error
        (GameError.ResourceLoadError "Image width > u16::MAX")) :=
  (c7_from_bytes_checks 64 exDecodeWide exCtx [] 70000 1 [] rfl).1
    (by norm_num)

/-- C8: `set_filter` writes only `sampler_info.filter`, `set_wrap` writes
only `sampler_info.wrap_mode`, `set_blend_mode` writes only the optional
override; none of the three touches the dimensions, the texture handle
or the texture view. -/
theorem c8_setters_touch_only_their_field (img : Image) (m : FilterMode)
    (wx wy : WrapMode) (bm : Option BlendMode) :
    ((img.set_filter m).sampler_info.filter = m ∧
     (img.set_filter m).sampler_info.wrap_mode = img.sampler_info.wrap_mode ∧
     (img.set_filter m).blend_mode = img.blend_mode ∧
     (img.set_filter m).width = img.width ∧
     (img.set_filter m).height = img.height ∧
     (img.set_filter m).texture = img.texture ∧
     (img.set_filter m).texture_handle = img.texture_handle ∧
     (img.set_filter m).debug_id = img.debug_id) ∧
    ((img.set_wrap wx wy).sampler_info.wrap_mode = (wx, wy) ∧
     (img.set_wrap wx wy).sampler_info.filter = img.sampler_info.filter ∧
     (img.set_wrap wx wy).blend_mode = img.blend_mode ∧
     (img.set_wrap wx wy).width = img.width ∧
     (img.set_wrap wx wy).height = img.height ∧
     (img.set_wrap wx wy).texture = img.texture ∧
     (img.set_wrap wx wy).texture_handle = img.texture_handle ∧
     (img.set_wrap wx wy).debug_id = img.debug_id) ∧
    ((img.set_blend_mode bm).blend_mode = bm ∧
     (img.set_blend_mode bm).sampler_info = img.sampler_info ∧
     (img.set_blend_mode bm).width = img.width ∧
     (img.set_blend_mode bm).height = img.height ∧
     (img.set_blend_mode bm).texture = img.texture ∧
     (img.set_blend_mode bm).texture_handle = img.texture_handle ∧
     (img.set_blend_mode bm).debug_id = img.debug_id) :=
  ⟨⟨rfl, rfl, rfl, rfl, rfl, rfl, rfl, rfl⟩,
   ⟨rfl, rfl, rfl, rfl, rfl, rfl, rfl, rfl⟩,
   ⟨rfl, rfl, rfl, rfl, rfl, rfl, rfl⟩⟩

/-- C9: for a nonzero size within the address width and a non-failing
backend, `solid` builds the `n*n`-pixel buffer by repeating the colour's
four RGBA bytes and hands it to `from_rgba8` with width = height = n;
reading the image back yields a buffer of length `n*n*4` whose every
aligned 4-byte group is the colour's RGBA bytes. -/
theorem c9_solid_pixels (wordBits : Nat) (ctx : Context) (n : Nat) (c : Color)
    (hn : 0 < n) (hfit : n * n * 4 < 2 ^ wordBits)
    (hft : ctx.gfx_context.factory.failTextureAlloc = false)
    (hfv : ctx.gfx_context.factory.failViewAlloc = false) :
    ∀ ctx' img, solid wordBits ctx n c = (ctx', Except.ok img) →
      img.width = n ∧ img.height = n ∧
      ∀ out, (to_rgba8 wordBits img ctx'.gfx_context).2 = Except.ok out →
        out.length = n * n * 4 ∧
        ∀ i, i < n * n →
          (out.drop (4 * i)).take 4 = [c.r, c.g, c.b, c.a] := by
  intro ctx' img heq
  have hnn : n * n < 2 ^ wordBits := by nlinarith
  have hmodeq : usize_of wordBits (n * n) = n * n := Nat.mod_eq_of_lt hnn
  have hblen : ((List.replicate (usize_of wordBits (n * n))
      [c.r, c.g, c.b, c.a]).flatten).length = n * n * 4 := by
    rw [hmodeq, flatten_replicate_length]
    simp
  have h2 : (solid wordBits ctx n c).2 = Except.ok img := by rw [heq]
  have hsnd : (solid wordBits ctx n c).2 =
      (make_raw wordBits ctx.gfx_context.factory
        ctx.gfx_context.default_sampler_info n n
        ((List.replicate (usize_of wordBits (n * n))
          [c.r, c.g, c.b, c.a]).flatten)
        ctx.gfx_context.color_format ctx.debug_id).2 := rfl
  rw [hsnd, make_raw_ok_eq wordBits ctx.gfx_context.factory
    ctx.gfx_context.default_sampler_info n n _
    ctx.gfx_context.color_format ctx.debug_id hn hn hblen hfit hft hfv] at h2
  simp only [Except.ok.injEq] at h2
  subst h2
  refine ⟨rfl, rfl, ?_⟩
  intro out hout
  rw [to_rgba8_data wordBits _ ctx'.gfx_context hblen hfit] at hout
  simp only [Except.ok.injEq] at hout
  subst hout
  refine ⟨hblen, ?_⟩
  intro i hi
  have hx := flatten_replicate_extract [c.r, c.g, c.b, c.a] (n * n) i hi
  rw [hmodeq]
  simpa using hx

/-- C9 witness: `solid` at size 2 with colour (10,20,30,40) reads back as
four repetitions of the pixel; the second aligned group equals the
colour's bytes. -/
theorem c9_solid_pixels_witness :
    exSolidBytes.length = 2 * 2 * 4 ∧
    (exSolidBytes.drop (4 * 1)).take 4 =
      [exColor.r, exColor.g, exColor.b, exColor.a] := by
  have h := (c9_solid_pixels 64 exCtx 2 exColor (by norm_num) (by norm_num)
    rfl rfl exCtxAfterSolid exImgSolid rfl).2.2 exSolidBytes rfl
  exact ⟨h.1, h.2 1 (by norm_num)⟩

/-- Success of `from_rgba8` yields an override-free image. -/
theorem from_rgba8_ok_blend_none (wordBits : Nat) (ctx : Context) (w h : Nat)
    (rgba : List Nat) (ctx' : Context) (img : Image)
    (heq : from_rgba8 wordBits ctx w h rgba = (ctx', Except.ok img)) :
    img.blend_mode = none := by
  have h2 : (from_rgba8 wordBits ctx w h rgba).2 = Except.ok img := by rw [heq]
  rw [from_rgba8_snd] at h2
  exact make_raw_ok_blend_none wordBits ctx.gfx_context.factory
    ctx.gfx_context.default_sampler_info w h rgba
    ctx.gfx_context.color_format ctx.debug_id _ img (by rw [← h2])

/-- Success of `from_bytes` yields an override-free image. -/
theorem from_bytes_ok_blend_none (wordBits : Nat)
    (decode : List Nat → GameResult (Nat × Nat × List Nat))
    (ctx : Context) (bytes : List Nat) (ctx' : Context) (img : Image)
    (heq : from_bytes wordBits decode ctx bytes = (ctx', Except.ok img)) :
    img.blend_mode = none := by
  rcases hd : decode bytes with e | ⟨w, h, pix⟩
  · rw [from_bytes, hd] at heq
    simp at heq
  · simp only [from_bytes, hd] at heq
    by_cases h1 : 65535 < w
    · rw [if_pos h1] at heq
      simp at heq
    · rw [if_neg h1] at heq
      by_cases h2 : 65535 < h
      · rw [if_pos h2] at heq
        simp at heq
      · rw [if_neg h2] at heq
        exact from_rgba8_ok_blend_none wordBits ctx w h pix ctx' img heq

/-- C10: every constructor path (`make_raw`, `from_rgba8`, `from_bytes`,
`new`, `solid`) returns images with no blend-mode override, and drawing
an override-free image never invokes the blend-mode setter. -/
theorem c10_constructors_no_override (wordBits : Nat) (f : Factory)
    (si : SamplerInfo) (w h : Nat) (rgba : List Nat) (cf d : Nat)
    (decode : List Nat → GameResult (Nat × Nat × List Nat))
    (fsopen : String → GameResult (List Nat))
    (ctx : Context) (bytes : List Nat) (path : String)
    (size : Nat) (color : Color) :
    (∀ f' img, make_raw wordBits f si w h rgba cf d = (f', Except.ok img) →
      img.blend_mode = none) ∧
    (∀ ctx' img, from_rgba8 wordBits ctx w h rgba = (ctx', Except.ok img) →
      img.blend_mode = none) ∧
    (∀ ctx' img, from_bytes wordBits decode ctx bytes = (ctx', Except.ok img) →
      img.blend_mode = none) ∧
    (∀ ctx' img, Image.new wordBits decode fsopen ctx path =
      (ctx', Except.ok img) → img.blend_mode = none) ∧
    (∀ ctx' img, solid wordBits ctx size color = (ctx', Except.ok img) →
      img.blend_mode = none) ∧
    (∀ img g, img.blend_mode = none →
      (draw_image_raw img g).1.blend_set_calls = g.blend_set_calls) := by
  refine ⟨?_, ?_, ?_, ?_, ?_, ?_⟩
  · intro f' img heq
    exact make_raw_ok_blend_none wordBits f si w h rgba cf d f' img heq
  · intro ctx' img heq
    exact from_rgba8_ok_blend_none wordBits ctx w h rgba ctx' img heq
  · intro ctx' img heq
    exact from_bytes_ok_blend_none wordBits decode ctx bytes ctx' img heq
  · intro ctx' img heq
    rcases hf : fsopen path with e | buf
    · rw [Image.new, hf] at heq
      simp at heq
    · rw [Image.new, hf] at heq
      exact from_bytes_ok_blend_none wordBits decode ctx buf ctx' img heq
  · intro ctx' img heq
    exact from_rgba8_ok_blend_none wordBits ctx size size _ ctx' img heq
  · intro img g hbm
    exact (draw_image_raw_none img g hbm).1

/-- C10 witness: the 2x2 image built by `from_rgba8` has no override. -/
theorem c10_constructors_no_override_witness : exImg2.blend_mode = none :=
  (c10_constructors_no_override 64 exFactory exSampler 2 2
    (List.replicate 16 99) 0 42 exDecodeWide exFsopen exCtx [] "a.png"
    2 exColor).2.1
    { exCtx with gfx_context := { exG with factory := exFactoryAfter } }
    exImg2 rfl

end GgezImage
